import Mathlib

/-!
Verification of the performance-sampling and health-scoring core of
`system_monitor.py` (class `SystemMonitor`): a shallow embedding of
`get_system_health_score`, `get_recommendations` and `monitor_system`,
with theorems settling the specification's claims about them.

Conventions of the embedding:
- Python floats become `ℚ` (all comparisons in the source are exact
  threshold comparisons, so rationals are a faithful carrier).
- A Python function that may receive `None` takes an `Option` argument;
  a dict key that may be absent becomes an `Option` field (`none` = the
  key is missing from the returned dict).
- `monitor_system`'s real-time clock is modelled as the claims stipulate:
  each loop iteration checks elapsed time before sampling and advances
  the clock by `interval`; `time.sleep` with a negative argument raises
  `ValueError`, modelled as an `Except.error`. A fuel parameter bounds
  the recursion; every theorem is stated for sufficient fuel.
-/

/-- The fields of `PerformanceMetrics` consulted by the health scorer and
by the sampling loop's data points. The remaining fields of the source
dataclass (`network_io`, `load_average`, `fan_speed`) are never read by
`get_system_health_score`, `get_recommendations` or `monitor_system`
and are omitted. -/
structure Metrics where
  cpu_percent : ℚ
  memory_percent : ℚ
  disk_percent : ℚ
  temperature : Option ℚ
deriving DecidableEq, Repr

/-- The dict returned by `get_system_health_score`.
`recommendations = none` models the `recommendations` key being absent
from the returned dict (the sentinel branch at line 396 of the source
builds a dict without that key). -/
structure HealthAssessment where
  score : Int
  status : String
  issues : List String
  recommendations : Option (List String)
deriving DecidableEq, Repr

/-- Whether `small` appears at the start of `s` (character lists). -/
def strLeads : List Char → List Char → Bool
  | [], _ => true
  | _ :: _, [] => false
  | a :: as, b :: bs => a == b && strLeads as bs

/-- Whether `pat` occurs contiguously somewhere in `s` (character lists). -/
def strFind : List Char → List Char → Bool
  | pat, [] => strLeads pat []
  | pat, c :: rest => strLeads pat (c :: rest) || strFind pat rest

/-- Python's `pat in s` substring test on strings. -/
def strContains (s pat : String) : Bool := strFind pat.data s.data

/-- CPU usage penalty of `get_system_health_score` (lines 402-407):
`if metrics.cpu_percent > 80: score -= 20 elif metrics.cpu_percent > 60: score -= 10`. -/
def cpuPenalty (cpu_percent : ℚ) : Int :=
  if cpu_percent > 80 then 20 else if cpu_percent > 60 then 10 else 0

/-- Issue label appended by the CPU block (lines 402-407). -/
def cpuIssue (cpu_percent : ℚ) : List String :=
  if cpu_percent > 80 then ["High CPU usage"]
  else if cpu_percent > 60 then ["Moderate CPU usage"]
  else []

/-- Memory usage penalty (lines 410-415). -/
def memoryPenalty (memory_percent : ℚ) : Int :=
  if memory_percent > 90 then 25 else if memory_percent > 80 then 15 else 0

/-- Issue label appended by the memory block (lines 410-415). -/
def memoryIssue (memory_percent : ℚ) : List String :=
  if memory_percent > 90 then ["Critical memory usage"]
  else if memory_percent > 80 then ["High memory usage"]
  else []

/-- Disk usage penalty (lines 418-423). -/
def diskPenalty (disk_percent : ℚ) : Int :=
  if disk_percent > 95 then 30 else if disk_percent > 85 then 15 else 0

/-- Issue label appended by the disk block (lines 418-423). -/
def diskIssue (disk_percent : ℚ) : List String :=
  if disk_percent > 95 then ["Critical disk usage"]
  else if disk_percent > 85 then ["High disk usage"]
  else []

/-- Temperature penalty (lines 426-428):
`if metrics.temperature and metrics.temperature > 80: score -= 20`.
Python truthiness: `None` and `0.0` are falsy, hence the `t ≠ 0` conjunct. -/
def temperaturePenalty (temperature : Option ℚ) : Int :=
  match temperature with
  | none => 0
  | some t => if t ≠ 0 ∧ t > 80 then 20 else 0

/-- Issue label appended by the temperature block (lines 426-428). -/
def temperatureIssue (temperature : Option ℚ) : List String :=
  match temperature with
  | none => []
  | some t => if t ≠ 0 ∧ t > 80 then ["High CPU temperature"] else []

/-- Status if-chain of `get_system_health_score` (lines 431-440), applied
to the score before the final `max(0, score)` clamp. -/
def statusOf (score : Int) : String :=
  if score ≥ 80 then "Excellent"
  else if score ≥ 60 then "Good"
  else if score ≥ 40 then "Fair"
  else if score ≥ 20 then "Poor"
  else "Critical"

/-- Body of the `for issue in issues` loop of `get_recommendations`
(lines 453-461): four independent substring tests, each appending its
recommendation to the accumulator. -/
def recommendationsForIssue (recommendations : List String) (issue : String) : List String :=
  let recommendations :=
    if strContains issue "CPU" then
      recommendations ++ ["Consider closing unnecessary applications or upgrading CPU"]
    else recommendations
  let recommendations :=
    if strContains issue "memory" then
      recommendations ++ ["Close unused applications or consider adding more RAM"]
    else recommendations
  let recommendations :=
    if strContains issue "disk" then
      recommendations ++ ["Free up disk space by deleting unnecessary files"]
    else recommendations
  let recommendations :=
    if strContains issue "temperature" then
      recommendations ++ ["Check cooling system and clean dust from fans"]
    else recommendations
  recommendations

/-- `SystemMonitor.get_recommendations` (lines 449-463). -/
def get_recommendations (issues : List String) : List String :=
  issues.foldl recommendationsForIssue []

/-- `SystemMonitor.get_system_health_score` (lines 392-447). The argument
is the result of `get_performance_metrics` (`none` when it failed). The
sequential `score -= p; issues.append(l)` blocks are rendered as the
penalty/issue functions above, subtracted and concatenated in the
source's fixed order (CPU, memory, disk, temperature); the sentinel
branch (line 396) returns a dict without a `recommendations` key. -/
def get_system_health_score (metrics : Option Metrics) : HealthAssessment :=
  match metrics with
  | none =>
      { score := 0, status := "Unknown", issues := ["Unable to get metrics"],
        recommendations := none }
  | some metrics =>
      let score : Int := 100 - cpuPenalty metrics.cpu_percent
        - memoryPenalty metrics.memory_percent
        - diskPenalty metrics.disk_percent
        - temperaturePenalty metrics.temperature
      let issues : List String :=
        cpuIssue metrics.cpu_percent ++ memoryIssue metrics.memory_percent
          ++ diskIssue metrics.disk_percent ++ temperatureIssue metrics.temperature
      { score := max 0 score,
        status := statusOf score,
        issues := issues,
        recommendations := some (get_recommendations issues) }

/-- One entry of the `data_points` buffer built by `monitor_system`
(lines 216-222). The wall-clock `datetime.now().isoformat()` timestamp is
modelled as the tick index at which the point was captured. -/
structure DataPoint where
  timestamp : Nat
  cpu_percent : ℚ
  memory_percent : ℚ
  disk_percent : ℚ
  temperature : Option ℚ
deriving DecidableEq, Repr

/-- The data point appended for metrics `m` captured at tick `tick`
(lines 216-222). -/
def toDataPoint (tick : Nat) (m : Metrics) : DataPoint :=
  ⟨tick, m.cpu_percent, m.memory_percent, m.disk_percent, m.temperature⟩

/-- State of the `monitor_system` loop: model clock, index of the next
provider read, and the `data_points` accumulator. -/
structure SamplerState where
  elapsed : Int
  tick : Nat
  buffer : List DataPoint
deriving DecidableEq, Repr

/-- The `while` loop of `SystemMonitor.monitor_system` (lines 213-224),
under the model where each iteration checks elapsed time before sampling
and then advances the clock by `interval`. `provider n` is the result of
the `n`-th `get_performance_metrics()` call (`none` when it failed, in
which case nothing is appended). `time.sleep(interval)` with a negative
`interval` raises `ValueError`, which the source does not catch; it is
modelled as `Except.error`. The `fuel` bound only limits unrolling:
theorems are stated for sufficient fuel. -/
def monitorRun (provider : Nat → Option Metrics) (duration interval : Int) :
    Nat → SamplerState → Except String SamplerState
  | 0, s => .ok s
  | fuel + 1, s =>
    if s.elapsed < duration then
      let buf : List DataPoint :=
        match provider s.tick with
        | some m => s.buffer ++ [toDataPoint s.tick m]
        | none => s.buffer
      if interval < 0 then
        .error "ValueError: sleep length must be non-negative"
      else
        monitorRun provider duration interval fuel
          ⟨s.elapsed + interval, s.tick + 1, buf⟩
    else
      .ok s

/-- `SystemMonitor.monitor_system` (lines 203-230): runs the loop from an
empty buffer at elapsed time 0 and returns the accumulated
`data_points`. -/
def monitor_system (provider : Nat → Option Metrics) (duration interval : Int)
    (fuel : Nat) : Except String (List DataPoint) :=
  (monitorRun provider duration interval fuel ⟨0, 0, []⟩).map SamplerState.buffer

/-- The first snapshot is strictly worse than the second in exactly one
metric dimension (higher cpu, memory, disk, or temperature) and equal in
the remaining ones. -/
def strictlyWorseInOneDim (worse better : Metrics) : Prop :=
  (better.cpu_percent < worse.cpu_percent ∧
    worse.memory_percent = better.memory_percent ∧
    worse.disk_percent = better.disk_percent ∧
    worse.temperature = better.temperature) ∨
  (worse.cpu_percent = better.cpu_percent ∧
    better.memory_percent < worse.memory_percent ∧
    worse.disk_percent = better.disk_percent ∧
    worse.temperature = better.temperature) ∨
  (worse.cpu_percent = better.cpu_percent ∧
    worse.memory_percent = better.memory_percent ∧
    better.disk_percent < worse.disk_percent ∧
    worse.temperature = better.temperature) ∨
  (worse.cpu_percent = better.cpu_percent ∧
    worse.memory_percent = better.memory_percent ∧
    worse.disk_percent = better.disk_percent ∧
    ∃ tw tb, worse.temperature = some tw ∧ better.temperature = some tb ∧ tb < tw)

/-- Once the elapsed clock has reached `duration`, the loop stops and
returns the state unchanged, whatever fuel remains. -/
theorem monitorRun_stop (provider : Nat → Option Metrics)
    (duration interval : Int) (fuel : Nat) (s : SamplerState)
    (h : ¬ s.elapsed < duration) :
    monitorRun provider duration interval fuel s = .ok s := by
  cases fuel <;> simp [monitorRun, h]

/-- Score field of an assessment computed from an obtained snapshot. -/
theorem score_some (m : Metrics) :
    (get_system_health_score (some m)).score =
      max 0 (100 - cpuPenalty m.cpu_percent - memoryPenalty m.memory_percent
        - diskPenalty m.disk_percent - temperaturePenalty m.temperature) := rfl

/-- Status field of an assessment computed from an obtained snapshot. -/
theorem status_some (m : Metrics) :
    (get_system_health_score (some m)).status =
      statusOf (100 - cpuPenalty m.cpu_percent - memoryPenalty m.memory_percent
        - diskPenalty m.disk_percent - temperaturePenalty m.temperature) := rfl

/-- Issues field of an assessment computed from an obtained snapshot. -/
theorem issues_some (m : Metrics) :
    (get_system_health_score (some m)).issues =
      cpuIssue m.cpu_percent ++ memoryIssue m.memory_percent
        ++ diskIssue m.disk_percent ++ temperatureIssue m.temperature := rfl

/-- Recommendations field of an assessment computed from an obtained
snapshot. -/
theorem recommendations_some (m : Metrics) :
    (get_system_health_score (some m)).recommendations =
      some (get_recommendations ((get_system_health_score (some m)).issues)) := rfl

theorem cpuPenalty_bounds (c : ℚ) : 0 ≤ cpuPenalty c ∧ cpuPenalty c ≤ 20 := by
  unfold cpuPenalty; split_ifs <;> norm_num

theorem memoryPenalty_bounds (c : ℚ) : 0 ≤ memoryPenalty c ∧ memoryPenalty c ≤ 25 := by
  unfold memoryPenalty; split_ifs <;> norm_num

theorem diskPenalty_bounds (c : ℚ) : 0 ≤ diskPenalty c ∧ diskPenalty c ≤ 30 := by
  unfold diskPenalty; split_ifs <;> norm_num

theorem temperaturePenalty_bounds (t : Option ℚ) :
    0 ≤ temperaturePenalty t ∧ temperaturePenalty t ≤ 20 := by
  cases t with
  | none => exact ⟨le_refl 0, by decide⟩
  | some t =>
    show 0 ≤ (if t ≠ 0 ∧ t > 80 then (20 : Int) else 0) ∧
      (if t ≠ 0 ∧ t > 80 then (20 : Int) else 0) ≤ 20
    split_ifs <;> norm_num

/-- The score before the `max(0, score)` clamp is between 5 and 100: the
four penalties sum to at most 20 + 25 + 30 + 20 = 95. -/
theorem preScore_bounds (m : Metrics) :
    5 ≤ 100 - cpuPenalty m.cpu_percent - memoryPenalty m.memory_percent
      - diskPenalty m.disk_percent - temperaturePenalty m.temperature ∧
    100 - cpuPenalty m.cpu_percent - memoryPenalty m.memory_percent
      - diskPenalty m.disk_percent - temperaturePenalty m.temperature ≤ 100 := by
  obtain ⟨h1, h2⟩ := cpuPenalty_bounds m.cpu_percent
  obtain ⟨h3, h4⟩ := memoryPenalty_bounds m.memory_percent
  obtain ⟨h5, h6⟩ := diskPenalty_bounds m.disk_percent
  obtain ⟨h7, h8⟩ := temperaturePenalty_bounds m.temperature
  constructor <;> linarith

/-- C4: for every snapshot the returned health score is an integer in
[0,100] and the status is exactly the band function of the returned
score, with the stated values at the band boundaries
(80 → Excellent, 79 → Good, 60 → Good, 59 → Fair, 40 → Fair, 39 → Poor,
20 → Poor, 19 → Critical). -/
theorem C4_score_bounds_and_status_bands :
    (∀ m : Metrics,
      0 ≤ (get_system_health_score (some m)).score ∧
      (get_system_health_score (some m)).score ≤ 100 ∧
      (get_system_health_score (some m)).status =
        statusOf (get_system_health_score (some m)).score) ∧
    statusOf 80 = "Excellent" ∧ statusOf 79 = "Good" ∧ statusOf 60 = "Good" ∧
    statusOf 59 = "Fair" ∧ statusOf 40 = "Fair" ∧ statusOf 39 = "Poor" ∧
    statusOf 20 = "Poor" ∧ statusOf 19 = "Critical" := by
  refine ⟨fun m => ?_, by decide, by decide, by decide, by decide, by decide,
    by decide, by decide, by decide⟩
  obtain ⟨hlo, hhi⟩ := preScore_bounds m
  have hmax : (get_system_health_score (some m)).score =
      100 - cpuPenalty m.cpu_percent - memoryPenalty m.memory_percent
        - diskPenalty m.disk_percent - temperaturePenalty m.temperature := by
    rw [score_some]
    exact max_eq_right (by linarith)
  refine ⟨by rw [hmax]; linarith, by rw [hmax]; linarith, ?_⟩
  rw [status_some, hmax]

/-- C10: for every snapshot that is actually scored, the penalties sum to
at most 95, so the score is at least 5 and equals the unclamped value
(the final `max(0, score)` never changes it); a returned score of 0
arises only from the sentinel path where no metrics were obtained. -/
theorem C10_min_score_and_clamp_noop :
    (∀ m : Metrics,
      5 ≤ (get_system_health_score (some m)).score ∧
      (get_system_health_score (some m)).score =
        100 - cpuPenalty m.cpu_percent - memoryPenalty m.memory_percent
          - diskPenalty m.disk_percent - temperaturePenalty m.temperature) ∧
    ∀ metrics : Option Metrics,
      (get_system_health_score metrics).score = 0 → metrics = none := by
  have key : ∀ m : Metrics,
      5 ≤ (get_system_health_score (some m)).score ∧
      (get_system_health_score (some m)).score =
        100 - cpuPenalty m.cpu_percent - memoryPenalty m.memory_percent
          - diskPenalty m.disk_percent - temperaturePenalty m.temperature := by
    intro m
    obtain ⟨hlo, _⟩ := preScore_bounds m
    have hmax : (get_system_health_score (some m)).score =
        100 - cpuPenalty m.cpu_percent - memoryPenalty m.memory_percent
          - diskPenalty m.disk_percent - temperaturePenalty m.temperature := by
      rw [score_some]
      exact max_eq_right (by linarith)
    exact ⟨by rw [hmax]; linarith, hmax⟩
  refine ⟨key, fun metrics h0 => ?_⟩
  cases metrics with
  | none => rfl
  | some m =>
    have := (key m).1
    rw [h0] at this
    norm_num at this

/-- C10 witness: the theorem instantiated at the sentinel input. -/
theorem C10_min_score_and_clamp_noop_witness : (none : Option Metrics) = none :=
  C10_min_score_and_clamp_noop.2 none (by decide)

/-- C2 counterexample: the claim asserts the sentinel assessment has the
four-field shape including a recommendations list, but the sentinel dict
built at line 396 of the source has no `recommendations` key at all. -/
theorem C2_counterexample_sentinel_lacks_recommendations :
    (get_system_health_score none).recommendations = none := rfl

/-- C2 (amended): when the provider returns no metrics, the scorer returns
the sentinel {score 0, status "Unknown", issues ["Unable to get metrics"]}
with NO recommendations key — a three-field dict, not the four-field
shape; every assessment computed from an obtained snapshot does carry the
fourth, recommendations, field. -/
theorem C2_sentinel_assessment_shape :
    get_system_health_score none =
      { score := 0, status := "Unknown", issues := ["Unable to get metrics"],
        recommendations := none } ∧
    ∀ m : Metrics, (get_system_health_score (some m)).recommendations =
      some (get_recommendations ((get_system_health_score (some m)).issues)) :=
  ⟨rfl, recommendations_some⟩

/-- C3 counterexample: at snapshot {cpu=85, memory=50, disk=50,
temperature absent} the status is not "Good" as the claim states; the
score of 80 falls in the `score ≥ 80` band. -/
theorem C3_counterexample_status_not_good :
    (get_system_health_score (some ⟨85, 50, 50, none⟩)).status ≠ "Good" := by
  decide

/-- C3 (amended): the snapshot {cpu=85, memory=50, disk=50, temperature
absent} scores 80 with status "Excellent" (not "Good": 80 lies in the
`score ≥ 80` band), issues ["High CPU usage"], and the single CPU
recommendation. -/
theorem C3_scenario_cpu85 :
    get_system_health_score (some ⟨85, 50, 50, none⟩) =
      { score := 80, status := "Excellent", issues := ["High CPU usage"],
        recommendations :=
          some ["Consider closing unnecessary applications or upgrading CPU"] } := by
  decide

theorem temperatureIssue_none : temperatureIssue none = [] := rfl

theorem temperatureIssue_some (t : ℚ) :
    temperatureIssue (some t) =
      if t ≠ 0 ∧ t > 80 then ["High CPU temperature"] else [] := rfl

/-- C1 counterexample: at snapshot {cpu=50, memory=50, disk=50,
temperature=85} the scorer produces the single issue
"High CPU temperature", but the recommendation mapping appends TWO
recommendations for it — the label contains both "CPU" and
"temperature", and the four substring tests in `get_recommendations`
are independent `if`s, not `elif`s. -/
theorem C1_counterexample_temperature_issue_two_recommendations :
    (get_system_health_score (some ⟨50, 50, 50, some 85⟩)).issues =
      ["High CPU temperature"] ∧
    (get_system_health_score (some ⟨50, 50, 50, some 85⟩)).recommendations =
      some ["Consider closing unnecessary applications or upgrading CPU",
            "Check cooling system and clean dust from fans"] := by
  decide

/-- C1 (amended): each triggered issue appends one recommendation per
substring category it mentions. Every producible issue label mentions
exactly one category, except "High CPU temperature", which mentions both
"CPU" and "temperature" and appends two recommendations (the CPU one then
the cooling one); hence the recommendations list of every assessment has
exactly one entry per issue plus one extra entry when the temperature
issue is present. -/
theorem C1_recommendation_mapping :
    (∀ m : Metrics,
      ((get_system_health_score (some m)).recommendations.getD []).length =
        (get_system_health_score (some m)).issues.length +
          (get_system_health_score (some m)).issues.count "High CPU temperature") ∧
    get_recommendations ["High CPU usage"] =
      ["Consider closing unnecessary applications or upgrading CPU"] ∧
    get_recommendations ["Moderate CPU usage"] =
      ["Consider closing unnecessary applications or upgrading CPU"] ∧
    get_recommendations ["Critical memory usage"] =
      ["Close unused applications or consider adding more RAM"] ∧
    get_recommendations ["High memory usage"] =
      ["Close unused applications or consider adding more RAM"] ∧
    get_recommendations ["Critical disk usage"] =
      ["Free up disk space by deleting unnecessary files"] ∧
    get_recommendations ["High disk usage"] =
      ["Free up disk space by deleting unnecessary files"] ∧
    get_recommendations ["High CPU temperature"] =
      ["Consider closing unnecessary applications or upgrading CPU",
       "Check cooling system and clean dust from fans"] := by
  refine ⟨fun m => ?_, by decide, by decide, by decide, by decide, by decide,
    by decide, by decide⟩
  obtain ⟨c, mp, d, t⟩ := m
  rw [recommendations_some, issues_some]
  dsimp only
  cases t with
  | none =>
    rw [temperatureIssue_none]
    unfold cpuIssue memoryIssue diskIssue
    split_ifs <;> decide
  | some t =>
    rw [temperatureIssue_some]
    unfold cpuIssue memoryIssue diskIssue
    split_ifs <;> decide

/-- C6: within one assessment at most one CPU issue, at most one memory
issue and at most one disk issue is present (the `if`/`elif` bands are
mutually exclusive); the temperature issue is independent and can
co-occur with the others. -/
theorem C6_issue_mutual_exclusivity :
    (∀ m : Metrics,
      (get_system_health_score (some m)).issues.count "High CPU usage" +
        (get_system_health_score (some m)).issues.count "Moderate CPU usage" ≤ 1 ∧
      (get_system_health_score (some m)).issues.count "Critical memory usage" +
        (get_system_health_score (some m)).issues.count "High memory usage" ≤ 1 ∧
      (get_system_health_score (some m)).issues.count "Critical disk usage" +
        (get_system_health_score (some m)).issues.count "High disk usage" ≤ 1) ∧
    ∃ m : Metrics,
      "High CPU usage" ∈ (get_system_health_score (some m)).issues ∧
      "High CPU temperature" ∈ (get_system_health_score (some m)).issues := by
  refine ⟨fun m => ?_, ⟨85, 50, 50, some 85⟩, by decide, by decide⟩
  obtain ⟨c, mp, d, t⟩ := m
  rw [issues_some]
  dsimp only
  cases t with
  | none =>
    rw [temperatureIssue_none]
    unfold cpuIssue memoryIssue diskIssue
    split_ifs <;> decide
  | some t =>
    rw [temperatureIssue_some]
    unfold cpuIssue memoryIssue diskIssue
    split_ifs <;> decide

theorem cpuPenalty_mono {a b : ℚ} (h : a ≤ b) : cpuPenalty a ≤ cpuPenalty b := by
  unfold cpuPenalty; split_ifs <;> first | (exfalso; linarith) | norm_num

theorem memoryPenalty_mono {a b : ℚ} (h : a ≤ b) :
    memoryPenalty a ≤ memoryPenalty b := by
  unfold memoryPenalty; split_ifs <;> first | (exfalso; linarith) | norm_num

theorem diskPenalty_mono {a b : ℚ} (h : a ≤ b) :
    diskPenalty a ≤ diskPenalty b := by
  unfold diskPenalty; split_ifs <;> first | (exfalso; linarith) | norm_num

theorem temperaturePenalty_mono {a b : ℚ} (h : a ≤ b) :
    temperaturePenalty (some a) ≤ temperaturePenalty (some b) := by
  show (if a ≠ 0 ∧ a > 80 then (20 : Int) else 0) ≤
    (if b ≠ 0 ∧ b > 80 then (20 : Int) else 0)
  split_ifs with h1 h2 <;> try norm_num
  exact absurd ⟨by intro hb0; rw [hb0] at h; linarith [h1.2],
    lt_of_lt_of_le h1.2 h⟩ h2

/-- C5: scoring is monotone in each metric dimension — a snapshot that is
strictly worse in one dimension and equal elsewhere never scores higher. -/
theorem C5_score_monotone (worse better : Metrics)
    (h : strictlyWorseInOneDim worse better) :
    (get_system_health_score (some worse)).score ≤
      (get_system_health_score (some better)).score := by
  rw [score_some, score_some]
  rcases h with ⟨hc, hm, hd, ht⟩ | ⟨hc, hm, hd, ht⟩ | ⟨hc, hm, hd, ht⟩ |
    ⟨hc, hm, hd, tw, tb, hw, hb, hlt⟩
  · have hp := cpuPenalty_mono (le_of_lt hc)
    rw [hm, hd, ht]
    exact max_le_max le_rfl (by linarith)
  · have hp := memoryPenalty_mono (le_of_lt hm)
    rw [hc, hd, ht]
    exact max_le_max le_rfl (by linarith)
  · have hp := diskPenalty_mono (le_of_lt hd)
    rw [hc, hm, ht]
    exact max_le_max le_rfl (by linarith)
  · have hp := temperaturePenalty_mono (le_of_lt hlt)
    rw [hc, hm, hd, hw, hb]
    exact max_le_max le_rfl (by linarith)

/-- C5 witness: cpu 85 vs cpu 70, all other metrics equal. -/
theorem C5_score_monotone_witness :
    strictlyWorseInOneDim ⟨85, 50, 50, none⟩ ⟨70, 50, 50, none⟩ ∧
    (get_system_health_score (some ⟨85, 50, 50, none⟩)).score ≤
      (get_system_health_score (some ⟨70, 50, 50, none⟩)).score :=
  ⟨Or.inl ⟨by norm_num, rfl, rfl, rfl⟩,
   C5_score_monotone ⟨85, 50, 50, none⟩ ⟨70, 50, 50, none⟩
     (Or.inl ⟨by norm_num, rfl, rfl, rfl⟩)⟩

/-- Scenario check from the spec: snapshot {cpu=30, memory=95, disk=97,
temperature=85} scores 100 − 25 − 30 − 20 = 25 with status "Poor". -/
theorem scenario_poor :
    get_system_health_score (some ⟨30, 95, 97, some 85⟩) =
      { score := 25, status := "Poor",
        issues := ["Critical memory usage", "Critical disk usage", "High CPU temperature"],
        recommendations := some
          ["Close unused applications or consider adding more RAM",
           "Free up disk space by deleting unnecessary files",
           "Consider closing unnecessary applications or upgrading CPU",
           "Check cooling system and clean dust from fans"] } := by
  decide

/-- C7 counterexample: the run with a negative duration returns an
ordinary empty buffer with no error of any kind — no configuration error
is surfaced to the caller, the source performs no validation at all. -/
theorem C7_counterexample_negative_duration_no_error :
    monitor_system (fun _ => some ⟨50, 50, 50, none⟩) (-1) 5 10 = .ok [] := rfl

/-- C7 (amended): the sampler validates nothing. A non-positive duration
makes the loop condition false at once, so the run returns an empty
buffer without any error; a negative interval with a positive duration
raises an uncaught ValueError from `time.sleep` at the end of the FIRST
iteration — after the loop has already partially run — not a
configuration error before the loop. -/
theorem C7_no_configuration_validation :
    (∀ (provider : Nat → Option Metrics) (interval : Int) (fuel : Nat)
      (duration : Int), duration ≤ 0 →
      monitor_system provider duration interval fuel = .ok []) ∧
    (∀ (provider : Nat → Option Metrics) (duration interval : Int) (fuel : Nat),
      0 < duration → interval < 0 →
      monitor_system provider duration interval (fuel + 1) =
        .error "ValueError: sleep length must be non-negative") := by
  constructor
  · intro provider interval fuel duration hd
    cases fuel with
    | zero => rfl
    | succ n =>
      have h0 : ¬ (0 : Int) < duration := by linarith
      simp [monitor_system, monitorRun, h0, Except.map]
  · intro provider duration interval fuel hd hi
    cases hp : provider 0 <;>
      simp [monitor_system, monitorRun, hd, hi, hp, Except.map]

/-- C7 witness: the amended theorem instantiated at duration −3 and at
(duration 12, interval −5). -/
theorem C7_no_configuration_validation_witness :
    monitor_system (fun _ => some ⟨50, 50, 50, none⟩) (-3) 5 2 = .ok [] ∧
    monitor_system (fun _ => some ⟨50, 50, 50, none⟩) 12 (-5) 1 =
      .error "ValueError: sleep length must be non-negative" :=
  ⟨C7_no_configuration_validation.1 _ 5 2 (-3) (by norm_num),
   C7_no_configuration_validation.2 _ 12 (-5) 0 (by norm_num) (by norm_num)⟩

/-- C8: when the provider fails at a tick inside the loop, nothing is
appended to the buffer for that tick and the loop moves on to the next
iteration; moreover, with a non-negative interval the run always ends in
an ordinary `.ok` result — a provider failure is never fatal. -/
theorem C8_provider_failure_skips_tick :
    (∀ (provider : Nat → Option Metrics) (duration interval : Int)
      (fuel : Nat) (s : SamplerState),
      s.elapsed < duration → provider s.tick = none → 0 ≤ interval →
      monitorRun provider duration interval (fuel + 1) s =
        monitorRun provider duration interval fuel
          ⟨s.elapsed + interval, s.tick + 1, s.buffer⟩) ∧
    (∀ (provider : Nat → Option Metrics) (duration interval : Int)
      (fuel : Nat) (s : SamplerState), 0 ≤ interval →
      ∃ s2, monitorRun provider duration interval fuel s = .ok s2) := by
  constructor
  · intro provider duration interval fuel s hlt hnone hi
    have hni : ¬ interval < 0 := by linarith
    simp [monitorRun, hlt, hnone, hni]
  · intro provider duration interval fuel
    induction fuel with
    | zero => exact fun s _ => ⟨s, rfl⟩
    | succ n ih =>
      intro s hi
      by_cases hlt : s.elapsed < duration
      · have hni : ¬ interval < 0 := by linarith
        cases hp : provider s.tick <;>
          simpa [monitorRun, hlt, hni, hp] using
            ih _ hi
      · exact ⟨s, monitorRun_stop provider duration interval (n + 1) s hlt⟩

/-- C8 witness: one failed tick at elapsed 0 under duration 10,
interval 5: the buffer stays empty and the run still completes. -/
theorem C8_provider_failure_skips_tick_witness :
    monitorRun (fun _ => none) 10 5 2 ⟨0, 0, []⟩ =
      monitorRun (fun _ => none) 10 5 1 ⟨5, 1, []⟩ ∧
    ∃ s2, monitorRun (fun _ => none) 10 5 3 ⟨0, 0, []⟩ = .ok s2 :=
  ⟨C8_provider_failure_skips_tick.1 _ 10 5 1 ⟨0, 0, []⟩ (by norm_num) rfl
     (by norm_num),
   C8_provider_failure_skips_tick.2 _ 10 5 3 ⟨0, 0, []⟩ (by norm_num)⟩

/-- C9: under the model where each iteration checks elapsed time before
sampling and then advances the clock by the interval,
run(duration=0, interval=5) returns an empty buffer immediately without
error, and run(duration=12, interval=5) with an always-succeeding
provider returns exactly 3 data points (ticks at elapsed 0, 5, 10). -/
theorem C9_tick_counts :
    (∀ (provider : Nat → Option Metrics) (fuel : Nat),
      monitor_system provider 0 5 fuel = .ok []) ∧
    (∀ provider : Nat → Option Metrics, (∀ n, (provider n).isSome) →
      ∀ fuel : Nat, 3 ≤ fuel →
        ∃ points, monitor_system provider 12 5 fuel = .ok points ∧
          points.length = 3) := by
  constructor
  · intro provider fuel
    cases fuel with
    | zero => rfl
    | succ n => simp [monitor_system, monitorRun, Except.map]
  · intro provider hp fuel hf
    obtain ⟨m0, h0⟩ := Option.isSome_iff_exists.mp (hp 0)
    obtain ⟨m1, h1⟩ := Option.isSome_iff_exists.mp (hp 1)
    obtain ⟨m2, h2⟩ := Option.isSome_iff_exists.mp (hp 2)
    obtain ⟨k, rfl⟩ := Nat.exists_eq_add_of_le hf
    refine ⟨[toDataPoint 0 m0, toDataPoint 1 m1, toDataPoint 2 m2], ?_, rfl⟩
    rw [Nat.add_comm 3 k]
    have hstop : monitorRun provider 12 5 k
        ⟨15, 3, [toDataPoint 0 m0, toDataPoint 1 m1, toDataPoint 2 m2]⟩ =
        .ok ⟨15, 3, [toDataPoint 0 m0, toDataPoint 1 m1, toDataPoint 2 m2]⟩ :=
      monitorRun_stop provider 12 5 k _ (by norm_num)
    simp [monitor_system, monitorRun, h0, h1, h2, hstop, Except.map]

/-- C9 witness: a provider that always succeeds, with fuel 3. -/
theorem C9_tick_counts_witness :
    ∃ points,
      monitor_system (fun _ => some ⟨50, 50, 50, none⟩) 12 5 3 = .ok points ∧
      points.length = 3 :=
  C9_tick_counts.2 (fun _ => some ⟨50, 50, 50, none⟩) (fun _ => rfl) 3
    (le_refl 3)
